import Mathlib

/-!
Verification of `src/ntfsprogs/ntfsvolume.c` (the `ntfsvolume` utility of the
Axcient ntfs-3g tree).

The file shallowly embeds the two pieces of original logic of the program:

* the geometry-reporting routine `info()` (lines 203-229 of ntfsvolume.c);
* the command-line scanner `parse_options()` (lines 103-197) together with the
  dispatch performed by `main()` (lines 239-262).

Machine-integer conventions: the fields read from the external volume handle
(`u16 sector_size`, `u32 cluster_size`, `u8 *_bits`, `s64 nr_clusters`,
`s64 initialized_size`) and the `u64` locals of `info()` are modelled as `Nat`.
The only operations that could overflow in C (`1 << cps` on `int` and
`nr_clusters << cb` on `s64`) have undefined behaviour on overflow there, so
the embedding uses exact natural-number shifts.
-/

namespace NtfsVolume

/-- Modelled from the spec: the MFT data-stream descriptor (`vol->mft_na`) is
supplied by the external filesystem library (attrib.h, not part of the given
sources); the program reads only its `initialized_size` field. -/
structure MftNa where
  initialized_size : Nat
deriving DecidableEq

/-- Modelled from the spec: the read-only capability surface of the external
volume handle (`ntfs_volume`, declared in the external volume.h).  The program
reads exactly these fields. -/
structure Volume where
  sector_size : Nat
  cluster_size : Nat
  cluster_size_bits : Nat
  sector_size_bits : Nat
  nr_clusters : Nat
  mft_na : MftNa
  mft_record_size_bits : Nat
deriving DecidableEq

/-- `a = vol->sector_size` in `info()`. -/
def info_a (vol : Volume) : Nat := vol.sector_size

/-- `b = vol->cluster_size` in `info()`. -/
def info_b (vol : Volume) : Nat := vol.cluster_size

/-- `c = 1 << cps` where `cps = cluster_size_bits - sector_size_bits`. -/
def info_c (vol : Volume) : Nat :=
  1 <<< (vol.cluster_size_bits - vol.sector_size_bits)

/-- `d = vol->nr_clusters << cb` where `cb = cluster_size_bits`. -/
def info_d (vol : Volume) : Nat := vol.nr_clusters <<< vol.cluster_size_bits

/-- `e = vol->nr_clusters` (printed under the label "sectors per volume"). -/
def info_e (vol : Volume) : Nat := vol.nr_clusters

/-- `f = vol->nr_clusters >> cps` (printed under the label
"clusters per volume"). -/
def info_f (vol : Volume) : Nat :=
  vol.nr_clusters >>> (vol.cluster_size_bits - vol.sector_size_bits)

/-- `g = vol->mft_na->initialized_size >> vol->mft_record_size_bits`. -/
def info_g (vol : Volume) : Nat :=
  vol.mft_na.initialized_size >>> vol.mft_record_size_bits

/-- The seven `ntfs_log_info` lines emitted by `info()`, in program order,
as (label, printed u64 value) pairs. -/
def info_lines (vol : Volume) : List (String × Nat) :=
  [("bytes per sector        ", info_a vol),
   ("bytes per cluster       ", info_b vol),
   ("sectors per cluster     ", info_c vol),
   ("bytes per volume        ", info_d vol),
   ("sectors per volume      ", info_e vol),
   ("clusters per volume     ", info_f vol),
   ("initialized mft records ", info_g vol)]

/-- `info()`: emits the lines and returns 0 (its only return statement). -/
def info (vol : Volume) : List (String × Nat) × Int := (info_lines vol, 0)

/-- State-passing form of `info()`: the second component is the volume handle
after the call.  The C body only ever reads through `vol` (every access is
`vol->field` on the right-hand side of an assignment), so the handle is
returned unchanged. -/
def info_state (vol : Volume) : (List (String × Nat) × Int) × Volume :=
  (info vol, vol)

/-- The concrete handle of the spec's worked example: sector_size=512,
cluster_size=4096, cluster_size_bits=12, sector_size_bits=9, nr_clusters=1000,
mft initialized_size=65536, mft_record_size_bits=10. -/
def exampleVol : Volume :=
  { sector_size := 512
    cluster_size := 4096
    cluster_size_bits := 12
    sector_size_bits := 9
    nr_clusters := 1000
    mft_na := { initialized_size := 65536 }
    mft_record_size_bits := 10 }

/-!
Embedding of `parse_options()`.

`getopt_long` is driven by the option string `"-c:F:fh?I:ilqs:vV"` and the
long-option table force/help/quiet/verbose/version.  The leading `-` makes
every non-option word come back as the character 1 in place.  An argument
vector (argv[1..]) is modelled as a list of `Arg` values, one per
getopt-recognised command-line word:

* `plain s` — a non-option word (switch case 1);
* `force`, `help`, `quiet`, `verbose`, `version` — `-f` or `--force`, `-h` or
  `--help`, `-q` or `--quiet`, `-v` or `--verbose`, `-V` or `--version`;
* `qmark` — `-?`, a valid option character of the string, handled by the
  `case '?'` branch (its text does not begin with `--log-`, so it falls
  through to the unknown-option report);
* `optC`, `optF`, `optI`, `optS` — `-c`, `-F`, `-I`, `-s`: argument-taking
  characters of the option string with no dedicated switch case.  getopt
  consumes the following word (whatever it is) as the option argument, and
  the `default:` branch reports an unknown option.  When no following word
  exists getopt yields `'?'` instead, which ends in the same report;
* ` opt_i`, ` opt_l` — `-i`, `-l`: argumentless characters with no dedicated
  case, reported by `default:`;
* `unknownShort c` — any other short option: getopt yields `'?'`, and the
  word does not begin with `--log-`;
* `logOpt ok` — a long word beginning with `--log-`, delegated to the
  external `ntfs_log_parse_option`, `ok` being that call's result;
* `unknownLong s` — any other unrecognised long word `--s`.
-/

inductive Arg where
  | plain (s : String)
  | force
  | help
  | quiet
  | verbose
  | version
  | qmark
  | optC
  | optF
  | optI
  | optS
  | opt_i
  | opt_l
  | unknownShort (c : Char)
  | logOpt (ok : Bool)
  | unknownLong (s : String)
deriving DecidableEq

/-- The diagnostics `parse_options()` can emit (message text elided). -/
inductive Msg where
  | unknownOption
  | mustSpecifyDevice
  | quietVerboseConflict
  | logOptionFailed
deriving DecidableEq

/-- Modelled from the spec: the process-wide level state of the external
logging subsystem (logging.c is not part of the given sources).  Only the two
bits `parse_options()` manipulates are kept: the QUIET level, present at
default verbosity and cleared by `ntfs_log_clear_levels(NTFS_LOG_LEVEL_QUIET)`,
and the VERBOSE level, absent by default and set by
`ntfs_log_set_levels(NTFS_LOG_LEVEL_VERBOSE)`. -/
structure LogLevels where
  quiet : Bool
  verbose : Bool
deriving DecidableEq

/-- Default verbosity of the external logging state. -/
def initLevels : LogLevels := { quiet := true, verbose := false }

/-- The zero-initialised global `static struct options opts` (the fields this
program uses). -/
structure Opts where
  device : Option String
  force : Nat
  quiet : Nat
  verbose : Nat
deriving DecidableEq

/-- State of the `parse_options()` getopt loop: the global `opts`, the locals
`err`, `ver`, `help`, the external log-level state, and the diagnostics
emitted so far. -/
structure PState where
  opts : Opts
  err : Nat
  ver : Nat
  help : Nat
  levels : LogLevels
  msgs : List Msg
deriving DecidableEq

/-- State at entry of the getopt loop. -/
def initState : PState :=
  { opts := { device := none, force := 0, quiet := 0, verbose := 0 }
    err := 0
    ver := 0
    help := 0
    levels := initLevels
    msgs := [] }

/-- The `while ((c = getopt_long(...)) != -1)` loop of `parse_options()`.
Each constructor is handled exactly as its switch branch; `optC`/`optF`/
`optI`/`optS` additionally consume the next word, which is skipped without
being looked at. -/
def scan : List Arg → PState → PState
  | [], st => st
  | Arg.plain s :: rest, st =>
      scan rest
        (match st.opts.device with
         | none => { st with opts := { st.opts with device := some s } }
         | some _ =>
             { st with opts := { st.opts with device := none },
                       err := st.err + 1 })
  | Arg.force :: rest, st =>
      scan rest { st with opts := { st.opts with force := st.opts.force + 1 } }
  | Arg.help :: rest, st => scan rest { st with help := st.help + 1 }
  | Arg.quiet :: rest, st =>
      scan rest
        { st with opts := { st.opts with quiet := st.opts.quiet + 1 },
                  levels := { st.levels with quiet := false } }
  | Arg.verbose :: rest, st =>
      scan rest
        { st with opts := { st.opts with verbose := st.opts.verbose + 1 },
                  levels := { st.levels with verbose := true } }
  | Arg.version :: rest, st => scan rest { st with ver := st.ver + 1 }
  | Arg.qmark :: rest, st =>
      scan rest { st with err := st.err + 1,
                          msgs := st.msgs ++ [Msg.unknownOption] }
  | Arg.optC :: _ :: rest, st =>
      scan rest { st with err := st.err + 1,
                          msgs := st.msgs ++ [Msg.unknownOption] }
  | [Arg.optC], st =>
      { st with err := st.err + 1, msgs := st.msgs ++ [Msg.unknownOption] }
  | Arg.optF :: _ :: rest, st =>
      scan rest { st with err := st.err + 1,
                          msgs := st.msgs ++ [Msg.unknownOption] }
  | [Arg.optF], st =>
      { st with err := st.err + 1, msgs := st.msgs ++ [Msg.unknownOption] }
  | Arg.optI :: _ :: rest, st =>
      scan rest { st with err := st.err + 1,
                          msgs := st.msgs ++ [Msg.unknownOption] }
  | [Arg.optI], st =>
      { st with err := st.err + 1, msgs := st.msgs ++ [Msg.unknownOption] }
  | Arg.optS :: _ :: rest, st =>
      scan rest { st with err := st.err + 1,
                          msgs := st.msgs ++ [Msg.unknownOption] }
  | [Arg.optS], st =>
      { st with err := st.err + 1, msgs := st.msgs ++ [Msg.unknownOption] }
  | Arg.opt_i :: rest, st =>
      scan rest { st with err := st.err + 1,
                          msgs := st.msgs ++ [Msg.unknownOption] }
  | Arg.opt_l :: rest, st =>
      scan rest { st with err := st.err + 1,
                          msgs := st.msgs ++ [Msg.unknownOption] }
  | Arg.unknownShort _ :: rest, st =>
      scan rest { st with err := st.err + 1,
                          msgs := st.msgs ++ [Msg.unknownOption] }
  | Arg.logOpt ok :: rest, st =>
      scan rest
        (if ok then st
         else { st with err := st.err + 1,
                        msgs := st.msgs ++ [Msg.logOptionFailed] })
  | Arg.unknownLong _ :: rest, st =>
      scan rest { st with err := st.err + 1,
                          msgs := st.msgs ++ [Msg.unknownOption] }

/-- Outcome of `parse_options()`: its tri-state return value (1 = error,
0 = done, -1 = proceed), the final global `opts`, the diagnostics, and
whether `version()` / `usage()` were called. -/
structure PResult where
  code : Int
  opts : Opts
  msgs : List Msg
  printedVersion : Bool
  printedUsage : Bool
deriving DecidableEq

/-- Lines 168-197 of `parse_options()`: the log-level resynchronisation, the
post-loop validation, the `version()`/`usage()` calls and the tri-state
return.  `argcGt1` is the `argc > 1` test, which only selects whether the
missing-device message is printed. -/
def finish (argcGt1 : Bool) (st : PState) : PResult :=
  let verbose := st.opts.verbose + (if st.levels.verbose then 1 else 0)
  let quiet := st.opts.quiet + (if st.levels.quiet then 0 else 1)
  if st.help ≠ 0 ∨ st.ver ≠ 0 then
    { code := if st.err ≠ 0 then 1 else 0
      opts := { st.opts with quiet := 0, verbose := verbose }
      msgs := st.msgs
      printedVersion := st.ver ≠ 0
      printedUsage := st.help ≠ 0 ∨ st.err ≠ 0 }
  else
    let devErr : Nat := if st.opts.device = none then 1 else 0
    let devMsgs := if st.opts.device = none ∧ argcGt1 then
        [Msg.mustSpecifyDevice] else []
    let qvErr : Nat := if quiet ≠ 0 ∧ verbose ≠ 0 then 1 else 0
    let qvMsgs := if quiet ≠ 0 ∧ verbose ≠ 0 then
        [Msg.quietVerboseConflict] else []
    let err := st.err + devErr + qvErr
    { code := if err ≠ 0 then 1 else -1
      opts := { st.opts with quiet := quiet, verbose := verbose }
      msgs := st.msgs ++ devMsgs ++ qvMsgs
      printedVersion := false
      printedUsage := err ≠ 0 }

/-- `parse_options(argc, argv)` on the argument vector `args` (argv[1..]). -/
def parse_result (args : List Arg) : PResult :=
  finish (!args.isEmpty) (scan args initState)

/-- The tri-state return value of `parse_options()`. -/
def parse_options (args : List Arg) : Int := (parse_result args).code

/-- `main()`: run `parse_options`; on a non-negative result return it without
touching any device; otherwise attempt the external mount (`mountResult`
models `utils_mount_volume`, which is not part of the given sources), run
`info` on success and return its result after unmounting.  The second
component records whether a mount was attempted. -/
def main (args : List Arg) (mountResult : Option Volume) : Int × Bool :=
  let res := parse_options args
  if 0 ≤ res then (res, false)
  else
    match mountResult with
    | none => (1, true)
    | some vol => ((info vol).2, true)

/-- Non-option words of the argument vector. -/
def isPlain : Arg → Bool
  | Arg.plain _ => true
  | _ => false

/-- The words whose processing neither raises an error, consumes a follower,
nor requests help or version: non-option words, the documented flags
force, quiet and verbose, and successfully delegated `--log-` options. -/
def benign : Arg → Bool
  | Arg.plain _ => true
  | Arg.force => true
  | Arg.quiet => true
  | Arg.verbose => true
  | Arg.logOpt ok => ok
  | _ => false

/-- The characters the option string accepts beyond the documented flags:
`-c`, `-F`, `-I`, `-s` (argument-taking) and `-i`, `-l`. -/
def undocOpt : Arg → Bool
  | Arg.optC => true
  | Arg.optF => true
  | Arg.optI => true
  | Arg.optS => true
  | Arg.opt_i => true
  | Arg.opt_l => true
  | _ => false

/-- A loop state that already holds a device path (exercises the
second-non-option-word branch of the loop). -/
def stWithDevice : PState :=
  { initState with opts := { initState.opts with device := some "a" } }

theorem scan_err_mono (args : List Arg) (st : PState) :
    st.err ≤ (scan args st).err := by
  induction args, st using scan.induct <;> simp only [scan] <;> (try split) <;>
    simp_all <;> omega

theorem scan_help_mono (args : List Arg) (st : PState) :
    st.help ≤ (scan args st).help := by
  induction args, st using scan.induct <;> simp only [scan] <;> (try split) <;>
    simp_all <;> omega

theorem scan_ver_mono (args : List Arg) (st : PState) :
    st.ver ≤ (scan args st).ver := by
  induction args, st using scan.induct <;> simp only [scan] <;> (try split) <;>
    simp_all <;> omega

theorem scan_err_bump (args : List Arg) (st : PState) (n : Nat)
    (h : n + 1 ≤ st.err) : n < (scan args st).err :=
  Nat.lt_of_lt_of_le h (scan_err_mono args st)

theorem scan_help_bump (args : List Arg) (st : PState) (n : Nat)
    (h : n + 1 ≤ st.help) : n < (scan args st).help :=
  Nat.lt_of_lt_of_le h (scan_help_mono args st)

theorem scan_ver_bump (args : List Arg) (st : PState) (n : Nat)
    (h : n + 1 ≤ st.ver) : n < (scan args st).ver :=
  Nat.lt_of_lt_of_le h (scan_ver_mono args st)

theorem scan_quiet_stays_false (args : List Arg) (st : PState)
    (h : st.levels.quiet = false) : (scan args st).levels.quiet = false := by
  induction args, st using scan.induct <;> simp only [scan] <;> (try split) <;>
    simp_all

theorem scan_verbose_stays_true (args : List Arg) (st : PState)
    (h : st.levels.verbose = true) : (scan args st).levels.verbose = true := by
  induction args, st using scan.induct <;> simp only [scan] <;> (try split) <;>
    simp_all

theorem scan_msgs_mono (args : List Arg) (st : PState) (m : Msg)
    (h : m ∈ st.msgs) : m ∈ (scan args st).msgs := by
  induction args, st using scan.induct <;> simp only [scan] <;> (try split) <;>
    simp_all

theorem scan_msgs_only (args : List Arg) (st : PState) (m : Msg)
    (h : m ∈ (scan args st).msgs) :
    m ∈ st.msgs ∨ m = Msg.unknownOption ∨ m = Msg.logOptionFailed := by
  induction args, st using scan.induct <;> simp only [scan] at h <;>
    (try split at h) <;> simp_all <;> tauto

theorem scan_help_not_mem (args : List Arg) (st : PState)
    (h : Arg.help ∉ args) : (scan args st).help = st.help := by
  induction args, st using scan.induct <;> simp only [scan] <;> (try split) <;>
    simp_all

theorem scan_ver_not_mem (args : List Arg) (st : PState)
    (h : Arg.version ∉ args) : (scan args st).ver = st.ver := by
  induction args, st using scan.induct <;> simp only [scan] <;> (try split) <;>
    simp_all

theorem scan_quiet_not_mem (args : List Arg) (st : PState)
    (h : Arg.quiet ∉ args) :
    (scan args st).opts.quiet = st.opts.quiet ∧
    (scan args st).levels.quiet = st.levels.quiet := by
  induction args, st using scan.induct <;> simp only [scan] <;> (try split) <;>
    simp_all

theorem scan_verbose_not_mem (args : List Arg) (st : PState)
    (h : Arg.verbose ∉ args) :
    (scan args st).opts.verbose = st.opts.verbose ∧
    (scan args st).levels.verbose = st.levels.verbose := by
  induction args, st using scan.induct <;> simp only [scan] <;> (try split) <;>
    simp_all

theorem scan_device_no_plain (args : List Arg) (st : PState)
    (h : ∀ a ∈ args, isPlain a = false) :
    (scan args st).opts.device = st.opts.device := by
  induction args, st using scan.induct <;> simp only [scan] <;> (try split) <;>
    simp_all [isPlain]

theorem scan_mem_quiet (args : List Arg) (st : PState) (h : Arg.quiet ∈ args) :
    (scan args st).levels.quiet = false ∨ st.err < (scan args st).err := by
  induction args, st using scan.induct <;> simp only [scan] <;> (try split) <;>
    first
      | (simp_all; done)
      | exact Or.inl (scan_quiet_stays_false _ _ rfl)
      | exact Or.inr (scan_err_bump _ _ _ (Nat.le_refl _))

theorem scan_mem_verbose (args : List Arg) (st : PState)
    (h : Arg.verbose ∈ args) :
    (scan args st).levels.verbose = true ∨ st.err < (scan args st).err := by
  induction args, st using scan.induct <;> simp only [scan] <;> (try split) <;>
    first
      | (simp_all; done)
      | exact Or.inl (scan_verbose_stays_true _ _ rfl)
      | exact Or.inr (scan_err_bump _ _ _ (Nat.le_refl _))

theorem scan_mem_help (args : List Arg) (st : PState) (h : Arg.help ∈ args) :
    st.help < (scan args st).help ∨ st.err < (scan args st).err := by
  induction args, st using scan.induct <;> simp only [scan] <;> (try split) <;>
    first
      | (simp_all; done)
      | exact Or.inl (scan_help_bump _ _ _ (Nat.le_refl _))
      | exact Or.inr (scan_err_bump _ _ _ (Nat.le_refl _))

theorem scan_mem_ver (args : List Arg) (st : PState)
    (h : Arg.version ∈ args) :
    st.ver < (scan args st).ver ∨ st.err < (scan args st).err := by
  induction args, st using scan.induct <;> simp only [scan] <;> (try split) <;>
    first
      | (simp_all; done)
      | exact Or.inl (scan_ver_bump _ _ _ (Nat.le_refl _))
      | exact Or.inr (scan_err_bump _ _ _ (Nat.le_refl _))

theorem scan_mem_undoc_err (args : List Arg) (st : PState) (a : Arg)
    (ha : a ∈ args) (hu : undocOpt a = true) :
    st.err < (scan args st).err := by
  induction args, st using scan.induct <;> simp only [scan] <;> (try split) <;>
    first
      | (simp_all [undocOpt]; done)
      | exact scan_err_bump _ _ _ (Nat.le_refl _)
      | (rcases List.mem_cons.mp ha with rfl | ha2
         · simp [undocOpt] at hu
         · simp_all)

theorem scan_mem_undoc_msg (args : List Arg) (st : PState) (a : Arg)
    (ha : a ∈ args) (hu : undocOpt a = true) :
    Msg.unknownOption ∈ (scan args st).msgs := by
  induction args, st using scan.induct <;> simp only [scan] <;> (try split) <;>
    first
      | (simp_all [undocOpt]; done)
      | exact scan_msgs_mono _ _ _
          (List.mem_append.mpr (Or.inr (List.mem_singleton.mpr rfl)))
      | (rcases List.mem_cons.mp ha with rfl | ha2
         · simp [undocOpt] at hu
         · simp_all)

theorem scan_benign_zero : ∀ (args : List Arg) (st : PState),
    (∀ a ∈ args, benign a = true) →
    args.filter isPlain = [] →
    (scan args st).opts.device = st.opts.device ∧
    (scan args st).err = st.err := by
  intro args
  induction args with
  | nil => intro st hb h0; exact ⟨rfl, rfl⟩
  | cons a rest ih =>
    intro st hb h0
    have hb2 : ∀ x ∈ rest, benign x = true :=
      fun x hx => hb x (List.mem_cons_of_mem _ hx)
    have hba : benign a = true := hb a (List.mem_cons_self a rest)
    cases a with
    | plain t => simp [List.filter_cons, isPlain] at h0
    | force =>
        simp only [scan]
        exact ih _ hb2 (by simpa [List.filter_cons, isPlain] using h0)
    | quiet =>
        simp only [scan]
        exact ih _ hb2 (by simpa [List.filter_cons, isPlain] using h0)
    | verbose =>
        simp only [scan]
        exact ih _ hb2 (by simpa [List.filter_cons, isPlain] using h0)
    | logOpt ok =>
        cases ok with
        | true =>
            simp only [scan, if_true]
            exact ih _ hb2 (by simpa [List.filter_cons, isPlain] using h0)
        | false => simp [benign] at hba
    | help => simp [benign] at hba
    | version => simp [benign] at hba
    | qmark => simp [benign] at hba
    | optC => simp [benign] at hba
    | optF => simp [benign] at hba
    | optI => simp [benign] at hba
    | optS => simp [benign] at hba
    | opt_i => simp [benign] at hba
    | opt_l => simp [benign] at hba
    | unknownShort c => simp [benign] at hba
    | unknownLong t => simp [benign] at hba

theorem scan_benign_one : ∀ (args : List Arg) (st : PState) (s : String),
    (∀ a ∈ args, benign a = true) →
    args.filter isPlain = [Arg.plain s] →
    st.opts.device = none →
    (scan args st).opts.device = some s ∧ (scan args st).err = st.err := by
  intro args
  induction args with
  | nil => intro st s hb h1 hdev; simp at h1
  | cons a rest ih =>
    intro st s hb h1 hdev
    have hb2 : ∀ x ∈ rest, benign x = true :=
      fun x hx => hb x (List.mem_cons_of_mem _ hx)
    have hba : benign a = true := hb a (List.mem_cons_self a rest)
    cases a with
    | plain t =>
        simp only [List.filter_cons, isPlain, if_true, List.cons.injEq,
          Arg.plain.injEq] at h1
        obtain ⟨rfl, h0⟩ := h1
        simp only [scan, hdev]
        exact scan_benign_zero rest _ hb2 h0
    | force =>
        simp only [scan]
        exact ih _ s hb2 (by simpa [List.filter_cons, isPlain] using h1) hdev
    | quiet =>
        simp only [scan]
        exact ih _ s hb2 (by simpa [List.filter_cons, isPlain] using h1) hdev
    | verbose =>
        simp only [scan]
        exact ih _ s hb2 (by simpa [List.filter_cons, isPlain] using h1) hdev
    | logOpt ok =>
        cases ok with
        | true =>
            simp only [scan, if_true]
            exact ih _ s hb2 (by simpa [List.filter_cons, isPlain] using h1)
              hdev
        | false => simp [benign] at hba
    | help => simp [benign] at hba
    | version => simp [benign] at hba
    | qmark => simp [benign] at hba
    | optC => simp [benign] at hba
    | optF => simp [benign] at hba
    | optI => simp [benign] at hba
    | optS => simp [benign] at hba
    | opt_i => simp [benign] at hba
    | opt_l => simp [benign] at hba
    | unknownShort c => simp [benign] at hba
    | unknownLong t => simp [benign] at hba


/-- A positive error count at the end of the loop forces the failure return
value 1. -/
theorem finish_code_of_err (b : Bool) (st : PState) (h : 0 < st.err) :
    (finish b st).code = 1 := by
  simp only [finish]
  split <;> simp <;> omega


theorem finish_msgs_mono (b : Bool) (st : PState) (m : Msg)
    (h : m ∈ st.msgs) : m ∈ (finish b st).msgs := by
  simp only [finish]
  split <;> simp [h]

theorem finish_help_or_ver (b : Bool) (st : PState)
    (h : 0 < st.help ∨ 0 < st.ver) :
    (finish b st).code = (if st.err = 0 then 0 else 1) ∧
    (finish b st).opts.quiet = 0 ∧
    (finish b st).msgs = st.msgs ∧
    (0 < st.help → (finish b st).printedUsage = true) ∧
    (0 < st.ver → (finish b st).printedVersion = true) := by
  have hcond : st.help ≠ 0 ∨ st.ver ≠ 0 := by omega
  refine ⟨?_, ?_, ?_, ?_, ?_⟩
  · simp only [finish, if_pos hcond]
    split_ifs <;> simp_all
  · simp [finish, if_pos hcond]
  · simp [finish, if_pos hcond]
  · intro hh
    simp [finish, if_pos hcond] <;> omega
  · intro hv
    simp [finish, if_pos hcond] <;> omega

theorem main_no_mount (args : List Arg) (m : Option Volume)
    (h : 0 ≤ parse_options args) :
    main args m = (parse_options args, false) := by
  simp [main, h]

/-!
The claims.  Each claim of the specification review is settled by exactly one
theorem below; counterexample and witness theorems are closed statements over
the definitions above.
-/

/-- C1: the claim says the "bytes per volume" line is nr_clusters times
cluster_size, the "sectors per volume" line is nr_clusters times
sectors-per-cluster and the "clusters per volume" line is nr_clusters,
giving 4096000, 8000 and 1000 on the example handle.  The code computes
`e = nr_clusters` and `f = nr_clusters >> cps` and prints them under the
"sectors per volume" and "clusters per volume" labels: on the example
handle the sectors line carries 1000 and the clusters line carries 125,
contradicting the code's own labels (a label/value slip; upstream
ntfscluster.c prints `e = nr_clusters << cps` and `f = nr_clusters`). -/
theorem c1_geometry_code_bug :
    info_lines exampleVol =
      [("bytes per sector        ", 512),
       ("bytes per cluster       ", 4096),
       ("sectors per cluster     ", 8),
       ("bytes per volume        ", 4096000),
       ("sectors per volume      ", 1000),
       ("clusters per volume     ", 125),
       ("initialized mft records ", 64)] ∧
    info_e exampleVol ≠ exampleVol.nr_clusters * info_c exampleVol ∧
    info_f exampleVol ≠ exampleVol.nr_clusters :=
  ⟨rfl, by decide, by decide⟩

/-- C2 counterexample: with `--help` together with an unknown option `-x`,
`parse_options` returns 1 (stop, failure) and the process exits 1, not 0:
in `err ? 1 : (help || ver ? 0 : -1)` the error takes precedence over the
help request. -/
theorem c2_counterexample :
    Arg.help ∈ [Arg.help, Arg.unknownShort 'x'] ∧
    parse_options [Arg.help, Arg.unknownShort 'x'] = 1 ∧
    (main [Arg.help, Arg.unknownShort 'x'] none).1 = 1 := by decide

/-- C2 (amended): for every argument list containing `--help` or
`--version`, no mount is ever attempted (the parse outcome is never
"proceed"); when the getopt loop counted no error the outcome is "stop,
success" with exit status 0, and when it counted an error the outcome is
"stop, failure" with exit status 1. -/
theorem c2_amended_help_version_no_mount (args : List Arg) (m : Option Volume)
    (h : Arg.help ∈ args ∨ Arg.version ∈ args) :
    (parse_options args = 0 ∨ parse_options args = 1) ∧
    (main args m).2 = false ∧
    ((scan args initState).err = 0 →
      parse_options args = 0 ∧ (main args m).1 = 0) ∧
    ((scan args initState).err ≠ 0 →
      parse_options args = 1 ∧ (main args m).1 = 1) := by
  have hst : 0 < (scan args initState).help ∨ 0 < (scan args initState).ver ∨
      0 < (scan args initState).err := by
    rcases h with h | h
    · rcases scan_mem_help args initState h with hh | he
      · exact Or.inl (by simpa [initState] using hh)
      · exact Or.inr (Or.inr (by simpa [initState] using he))
    · rcases scan_mem_ver args initState h with hh | he
      · exact Or.inr (Or.inl (by simpa [initState] using hh))
      · exact Or.inr (Or.inr (by simpa [initState] using he))
  have hcases : parse_options args = 0 ∨ parse_options args = 1 := by
    rcases hst with hh | hv | he
    · have hfc := (finish_help_or_ver (!args.isEmpty) (scan args initState)
        (Or.inl hh)).1
      simp only [parse_options, parse_result, hfc]
      split_ifs <;> simp
    · have hfc := (finish_help_or_ver (!args.isEmpty) (scan args initState)
        (Or.inr hv)).1
      simp only [parse_options, parse_result, hfc]
      split_ifs <;> simp
    · exact Or.inr (finish_code_of_err _ _ he)
  have hge : 0 ≤ parse_options args := by
    rcases hcases with h0 | h0 <;> simp [h0]
  refine ⟨hcases, ?_, ?_, ?_⟩
  · rw [main_no_mount args m hge]
  · intro herr
    have hhv : 0 < (scan args initState).help ∨
        0 < (scan args initState).ver := by
      rcases hst with hh | hv | he
      · exact Or.inl hh
      · exact Or.inr hv
      · omega
    have hfc := (finish_help_or_ver (!args.isEmpty) (scan args initState)
      hhv).1
    have hc0 : parse_options args = 0 := by
      simp only [parse_options, parse_result, hfc, herr]
      simp
    refine ⟨hc0, ?_⟩
    rw [main_no_mount args m hge, hc0]
  · intro herr
    have hc1 : parse_options args = 1 :=
      finish_code_of_err _ _ (Nat.pos_of_ne_zero herr)
    refine ⟨hc1, ?_⟩
    rw [main_no_mount args m hge, hc1]

/-- C2 witness: `--version` alone stops with success and mounts nothing. -/
theorem c2_witness :
    (parse_options [Arg.version] = 0 ∨ parse_options [Arg.version] = 1) ∧
    (main [Arg.version] none).2 = false ∧
    ((scan [Arg.version] initState).err = 0 →
      parse_options [Arg.version] = 0 ∧ (main [Arg.version] none).1 = 0) ∧
    ((scan [Arg.version] initState).err ≠ 0 →
      parse_options [Arg.version] = 1 ∧ (main [Arg.version] none).1 = 1) :=
  c2_amended_help_version_no_mount [Arg.version] none (by decide)

/-- C3 counterexample: `-q -v --help` does not stop with failure: help
resets the quiet counter and skips the conflict check, so the result is 0
(stop, success). -/
theorem c3_counterexample :
    parse_options [Arg.quiet, Arg.verbose, Arg.help] ≠ 1 := by decide

/-- C3 (amended): every argument list containing at least one quiet flag
and at least one verbose flag and no help or version flag makes
`parse_options` yield "stop, failure" (return 1). -/
theorem c3_amended_quiet_verbose_conflict (args : List Arg)
    (hq : Arg.quiet ∈ args) (hv : Arg.verbose ∈ args)
    (hh : Arg.help ∉ args) (hV : Arg.version ∉ args) :
    parse_options args = 1 := by
  have hhelp : (scan args initState).help = 0 := by
    simpa [initState] using scan_help_not_mem args initState hh
  have hver : (scan args initState).ver = 0 := by
    simpa [initState] using scan_ver_not_mem args initState hV
  rcases scan_mem_quiet args initState hq with hlq | he
  · rcases scan_mem_verbose args initState hv with hlv | he
    · simp [parse_options, parse_result, finish, hhelp, hver, hlq, hlv]
    · exact finish_code_of_err _ _ (by simpa [initState] using he)
  · exact finish_code_of_err _ _ (by simpa [initState] using he)

/-- C3 witness: `-q -v` stops with failure. -/
theorem c3_witness : parse_options [Arg.quiet, Arg.verbose] = 1 :=
  c3_amended_quiet_verbose_conflict [Arg.quiet, Arg.verbose]
    (by decide) (by decide) (by decide) (by decide)

/-- C4 counterexample: the Geometry Reporter prints seven lines, not six
(the spec itself calls `info()` "a seven-field arithmetic/print routine"). -/
theorem c4_counterexample : (info_lines exampleVol).length ≠ 6 := by decide

/-- C4 (amended): for every volume handle the Geometry Reporter prints
exactly seven geometry lines, one field per line, never a partial subset,
and returns status 0. -/
theorem c4_amended_seven_lines_success (vol : Volume) :
    (info_lines vol).length = 7 ∧ (info vol).2 = 0 := ⟨rfl, rfl⟩

/-- C5: when sector_size and cluster_size are the powers of two named by
their exponent fields and cluster_size_bits is at least sector_size_bits,
the shift-computed sectors-per-cluster `1 << (cb - sb)` equals
cluster_size / sector_size, and the shift-computed initialized-mft-records
`initialized_size >> mft_record_size_bits` equals the initialized byte size
divided by 2 ^ mft_record_size_bits. -/
theorem c5_shift_eq_div (vol : Volume)
    (hs : vol.sector_size = 2 ^ vol.sector_size_bits)
    (hc : vol.cluster_size = 2 ^ vol.cluster_size_bits)
    (hle : vol.sector_size_bits ≤ vol.cluster_size_bits) :
    info_c vol = vol.cluster_size / vol.sector_size ∧
    info_g vol = vol.mft_na.initialized_size /
      2 ^ vol.mft_record_size_bits := by
  constructor
  · rw [info_c, hs, hc, Nat.shiftLeft_eq, one_mul,
      Nat.pow_div hle (by norm_num)]
  · rw [info_g, Nat.shiftRight_eq_div_pow]

/-- C5 witness: on the example handle 1 << 3 = 4096 / 512 and
65536 >> 10 = 65536 / 1024. -/
theorem c5_witness :
    info_c exampleVol = exampleVol.cluster_size / exampleVol.sector_size ∧
    info_g exampleVol = exampleVol.mft_na.initialized_size /
      2 ^ exampleVol.mft_record_size_bits :=
  c5_shift_eq_div exampleVol (by decide) (by decide) (by decide)

/-- C6: an argument list of benign words (the device word, force, quiet,
verbose and successful log options) with exactly one non-option word and
not both a quiet and a verbose flag parses to "proceed" (-1) with the
device path set to that word. -/
theorem c6_single_device_proceed (args : List Arg) (s : String)
    (hb : ∀ a ∈ args, benign a = true)
    (h1 : args.filter isPlain = [Arg.plain s])
    (hqv : ¬(Arg.quiet ∈ args ∧ Arg.verbose ∈ args)) :
    parse_options args = -1 ∧ (parse_result args).opts.device = some s := by
  have hh : Arg.help ∉ args := fun hm => by simpa [benign] using hb _ hm
  have hV : Arg.version ∉ args := fun hm => by simpa [benign] using hb _ hm
  have hhelp : (scan args initState).help = 0 := by
    simpa [initState] using scan_help_not_mem args initState hh
  have hver : (scan args initState).ver = 0 := by
    simpa [initState] using scan_ver_not_mem args initState hV
  have hdev := scan_benign_one args initState s hb h1 rfl
  have hdev1 : (scan args initState).opts.device = some s := hdev.1
  have hdev2 : (scan args initState).err = 0 := by
    simpa [initState] using hdev.2
  have hq_or : Arg.quiet ∉ args ∨ Arg.verbose ∉ args := by tauto
  rcases hq_or with hq | hv
  · have hqs1 : (scan args initState).opts.quiet = 0 := by
      simpa [initState] using (scan_quiet_not_mem args initState hq).1
    have hqs2 : (scan args initState).levels.quiet = true := by
      simpa [initState, initLevels] using
        (scan_quiet_not_mem args initState hq).2
    simp [parse_options, parse_result, finish, hhelp, hver, hdev1, hdev2,
      hqs1, hqs2]
  · have hvs1 : (scan args initState).opts.verbose = 0 := by
      simpa [initState] using (scan_verbose_not_mem args initState hv).1
    have hvs2 : (scan args initState).levels.verbose = false := by
      simpa [initState, initLevels] using
        (scan_verbose_not_mem args initState hv).2
    simp [parse_options, parse_result, finish, hhelp, hver, hdev1, hdev2,
      hvs1, hvs2]

/-- C6 witness: `-f dev` proceeds with device path "dev". -/
theorem c6_witness :
    parse_options [Arg.force, Arg.plain "dev"] = -1 ∧
    (parse_result [Arg.force, Arg.plain "dev"]).opts.device = some "dev" :=
  c6_single_device_proceed [Arg.force, Arg.plain "dev"] "dev"
    (by decide) (by decide) (by decide)

/-- C7: exactly one device argument is enforced.  First: an argument list
with no non-option word and no help or version flag parses to "stop,
failure".  Second: when the loop meets a non-option word while a device is
already stored, it resets the stored device to empty, counts an error, and
whatever follows, the final outcome is "stop, failure". -/
theorem c7_exactly_one_device :
    (∀ (args : List Arg), (∀ a ∈ args, isPlain a = false) →
        Arg.help ∉ args → Arg.version ∉ args → parse_options args = 1) ∧
    (∀ (st : PState) (d s : String) (rest : List Arg) (b : Bool),
        st.opts.device = some d →
        scan (Arg.plain s :: rest) st =
          scan rest { st with opts := { st.opts with device := none },
                              err := st.err + 1 } ∧
        (finish b (scan (Arg.plain s :: rest) st)).code = 1) := by
  constructor
  · intro args hp hh hV
    have hdev : (scan args initState).opts.device = none := by
      simpa [initState] using scan_device_no_plain args initState hp
    have hhelp : (scan args initState).help = 0 := by
      simpa [initState] using scan_help_not_mem args initState hh
    have hver : (scan args initState).ver = 0 := by
      simpa [initState] using scan_ver_not_mem args initState hV
    simp [parse_options, parse_result, finish, hdev, hhelp, hver]
  · intro st d s rest b hdev
    have heq : scan (Arg.plain s :: rest) st =
        scan rest { st with opts := { st.opts with device := none },
                            err := st.err + 1 } := by
      simp [scan, hdev]
    refine ⟨heq, ?_⟩
    rw [heq]
    exact finish_code_of_err b _
      (scan_err_bump rest _ 0 (Nat.le_add_left 1 st.err))

/-- C7 witness: `-v` alone (no device) fails, and a second device word on a
state already holding "a" resets the device and forces failure. -/
theorem c7_witness :
    parse_options [Arg.verbose] = 1 ∧
    (scan [Arg.plain "b"] stWithDevice =
      scan [] { stWithDevice with
                  opts := { stWithDevice.opts with device := none },
                  err := stWithDevice.err + 1 } ∧
     (finish true (scan [Arg.plain "b"] stWithDevice)).code = 1) :=
  ⟨c7_exactly_one_device.1 [Arg.verbose] (by decide) (by decide) (by decide),
   c7_exactly_one_device.2 stWithDevice "a" "b" [] true rfl⟩

/-- C8: the Geometry Reporter is a pure function of the handle: the handle
is unchanged by the call, and a second invocation on the returned handle
produces the identical lines and the identical return status. -/
theorem c8_info_pure_idempotent (vol : Volume) :
    (info_state vol).2 = vol ∧
    (info_state (info_state vol).2).1 = (info_state vol).1 :=
  ⟨rfl, rfl⟩

/-- C9 counterexample: in `-c -h -q -v` the `-h` word is consumed by `-c`
as its option argument, so help is not requested: the quiet counter is not
reset (it ends at 2) and the quiet flag does contribute a quiet/verbose
conflict error. -/
theorem c9_counterexample :
    Arg.quiet ∈ [Arg.optC, Arg.help, Arg.quiet, Arg.verbose] ∧
    Arg.help ∈ [Arg.optC, Arg.help, Arg.quiet, Arg.verbose] ∧
    (parse_result [Arg.optC, Arg.help, Arg.quiet, Arg.verbose]).opts.quiet
      ≠ 0 ∧
    Msg.quietVerboseConflict ∈
      (parse_result [Arg.optC, Arg.help, Arg.quiet, Arg.verbose]).msgs := by
  decide

/-- C9 (amended): whenever help or version was requested, meaning the `-h`
or `-V` flag was actually processed by the getopt loop (not consumed as the
argument of `-c`, `-F`, `-I` or `-s`), `parse_options` resets the quiet
counter to 0 after scanning all tokens, the quiet/verbose conflict error is
never emitted, the outcome depends only on the loop error count (0 on a
clean scan, 1 otherwise), and the requested banner is printed. -/
theorem c9_amended_quiet_reset (args : List Arg)
    (h : 0 < (scan args initState).help ∨ 0 < (scan args initState).ver) :
    (parse_result args).opts.quiet = 0 ∧
    Msg.quietVerboseConflict ∉ (parse_result args).msgs ∧
    parse_options args = (if (scan args initState).err = 0 then 0 else 1) ∧
    (0 < (scan args initState).help →
      (parse_result args).printedUsage = true) ∧
    (0 < (scan args initState).ver →
      (parse_result args).printedVersion = true) := by
  have hf := finish_help_or_ver (!args.isEmpty) (scan args initState) h
  have hmsg : Msg.quietVerboseConflict ∉ (scan args initState).msgs := by
    intro hm
    rcases scan_msgs_only args initState _ hm with h0 | h0 | h0 <;>
      simp [initState] at h0
  refine ⟨hf.2.1, ?_, hf.1, hf.2.2.2.1, hf.2.2.2.2⟩
  rw [parse_result, hf.2.2.1]
  exact hmsg

/-- C9 witness: `-q -h` resets quiet to 0, emits no conflict error and
stops with success. -/
theorem c9_witness :
    (parse_result [Arg.quiet, Arg.help]).opts.quiet = 0 ∧
    Msg.quietVerboseConflict ∉ (parse_result [Arg.quiet, Arg.help]).msgs ∧
    parse_options [Arg.quiet, Arg.help] =
      (if (scan [Arg.quiet, Arg.help] initState).err = 0 then 0 else 1) ∧
    (0 < (scan [Arg.quiet, Arg.help] initState).help →
      (parse_result [Arg.quiet, Arg.help]).printedUsage = true) ∧
    (0 < (scan [Arg.quiet, Arg.help] initState).ver →
      (parse_result [Arg.quiet, Arg.help]).printedVersion = true) :=
  c9_amended_quiet_reset [Arg.quiet, Arg.help] (by decide)

/-- C10: every argument list containing one of the undocumented option
characters `-c`, `-F`, `-I`, `-s`, `-i`, `-l` is reported with an
unknown-option diagnostic and parses to "stop, failure"; and for the
argument-taking ones the following word is consumed wholesale, never
touching the stored device path. -/
theorem c10_undoc_options_rejected :
    (∀ (args : List Arg) (a : Arg), a ∈ args → undocOpt a = true →
        parse_options args = 1 ∧
        Msg.unknownOption ∈ (parse_result args).msgs) ∧
    (∀ (st : PState) (a : Arg) (rest : List Arg),
        scan (Arg.optC :: a :: rest) st = scan rest
          { st with err := st.err + 1,
                    msgs := st.msgs ++ [Msg.unknownOption] } ∧
        scan (Arg.optF :: a :: rest) st = scan rest
          { st with err := st.err + 1,
                    msgs := st.msgs ++ [Msg.unknownOption] } ∧
        scan (Arg.optI :: a :: rest) st = scan rest
          { st with err := st.err + 1,
                    msgs := st.msgs ++ [Msg.unknownOption] } ∧
        scan (Arg.optS :: a :: rest) st = scan rest
          { st with err := st.err + 1,
                    msgs := st.msgs ++ [Msg.unknownOption] }) := by
  constructor
  · intro args a ha hu
    refine ⟨?_, ?_⟩
    · exact finish_code_of_err _ _
        (by simpa [initState] using
          scan_mem_undoc_err args initState a ha hu)
    · exact finish_msgs_mono _ _ _ (scan_mem_undoc_msg args initState a ha hu)
  · intro st a rest
    exact ⟨rfl, rfl, rfl, rfl⟩

/-- C10 witness: `-i dev` fails with an unknown-option report, and `-c -q`
consumes the `-q` word without treating it as a device. -/
theorem c10_witness :
    (parse_options [Arg.opt_i, Arg.plain "dev"] = 1 ∧
     Msg.unknownOption ∈ (parse_result [Arg.opt_i, Arg.plain "dev"]).msgs) ∧
    scan [Arg.optC, Arg.quiet] initState = scan []
      { initState with err := initState.err + 1,
                       msgs := initState.msgs ++ [Msg.unknownOption] } :=
  ⟨c10_undoc_options_rejected.1 [Arg.opt_i, Arg.plain "dev"] Arg.opt_i
     (by decide) (by decide),
   (c10_undoc_options_rejected.2 initState Arg.quiet []).1⟩

end NtfsVolume
